import Mathlib

/-!
Shallow embedding of `SDL_systimer.c` (daphne_on_Android libretro timer,
`src/daphne_on_Android/.../src/timer/libretro/SDL_systimer.c`).

The file has two compilation branches:
* the Windows branch (`#ifdef _WIN32`, non-WinRT variant embedded here), and
* the POSIX/Android branch (`#else`), embedded in its `HAVE_CLOCK_GETTIME`
  variant, which is the one the Android build uses.

Global mutable state becomes an explicit state record threaded through each
function; platform clock calls (`clock_gettime`, `gettimeofday`,
`QueryPerformanceCounter`, `QueryPerformanceFrequency`, `timeGetTime`) become
an explicit "clock environment" record holding the values those calls would
yield during the modelled call.  C unsigned conversions are `% 2^32` /
`% 2^64` on `Int`; C signed integer division (truncation toward zero) is
`Int.tdiv`.
-/

/-- C `struct timespec` (`tv_sec : time_t`, `tv_nsec : long`). -/
structure Timespec where
  tv_sec : Int
  tv_nsec : Int
deriving DecidableEq, Repr

/-- C `struct timeval` (`tv_sec : time_t`, `tv_usec : long`). -/
structure Timeval where
  tv_sec : Int
  tv_usec : Int
deriving DecidableEq, Repr

/-- Conversion of a C integer value to `Uint32` / `DWORD`: reduce mod `2^32`.
`Int.emod` with a positive modulus is non-negative, matching C's unsigned
conversion. -/
def u32 (x : Int) : Nat := (x % (2 ^ 32 : Int)).toNat

/-- Conversion of a C integer value to `Uint64`: reduce mod `2^64`. -/
def u64 (x : Int) : Nat := (x % (2 ^ 64 : Int)).toNat

/-- Wrap-safe unsigned 32-bit subtraction `(Uint32)(a - b)`. -/
def u32sub (a b : Nat) : Nat := u32 ((a : Int) - (b : Int))

/-! ## POSIX/Android branch (`#else` of `#ifdef _WIN32`, `HAVE_CLOCK_GETTIME`) -/

/-- The file-scope globals of the POSIX branch:
`static struct timespec start_ts; static SDL_bool has_monotonic_time;
static struct timeval start_tv; static SDL_bool ticks_started;`. -/
structure PosixState where
  start_ts : Timespec
  has_monotonic_time : Bool
  start_tv : Timeval
  ticks_started : Bool
deriving DecidableEq, Repr

/-- The platform clock readings available during one modelled call:
`cg_ok` is whether `clock_gettime(SDL_MONOTONIC_CLOCK, ...)` returns 0,
`cg_now` the timespec it would store, `tv_now` the timeval `gettimeofday`
would store. -/
structure PosixClock where
  cg_ok : Bool
  cg_now : Timespec
  tv_now : Timeval
deriving DecidableEq, Repr

namespace Posix

/-- `SDL_TicksInit` (POSIX branch, lines 249-272): no-op when already
started; otherwise sets `ticks_started`, then captures `start_ts` from the
monotonic clock when available (setting `has_monotonic_time`), else captures
`start_tv` from `gettimeofday`. -/
def SDL_TicksInit (c : PosixClock) (s : PosixState) : PosixState :=
  if s.ticks_started then s
  else
    let s1 : PosixState := { s with ticks_started := true }
    if c.cg_ok then
      { s1 with start_ts := c.cg_now, has_monotonic_time := true }
    else
      { s1 with start_tv := c.tv_now }

/-- `SDL_TicksQuit` (POSIX branch, lines 274-278): only clears
`ticks_started`. -/
def SDL_TicksQuit (s : PosixState) : PosixState :=
  { s with ticks_started := false }

/-- The `Uint32 ticks` value `SDL_GetTicks` computes from a (post-init)
state and the current clock readings: lines 292-316.  The `long` arithmetic
is exact (`Int`); the assignment to `Uint32 ticks` and the explicit
`(Uint32)` cast reduce mod `2^32`; C `/` on `long` truncates toward zero
(`Int.tdiv`). -/
def ticksValue (s : PosixState) (c : PosixClock) : Nat :=
  if s.has_monotonic_time then
    u32 ((c.cg_now.tv_sec - s.start_ts.tv_sec) * 1000 +
      Int.tdiv (c.cg_now.tv_nsec - s.start_ts.tv_nsec) 1000000)
  else
    u32 ((c.tv_now.tv_sec - s.start_tv.tv_sec) * 1000 +
      Int.tdiv (c.tv_now.tv_usec - s.start_tv.tv_usec) 1000)

/-- `SDL_GetTicks` (POSIX branch, lines 280-319): lazily initializes, then
returns origin-relative milliseconds as `Uint32`. -/
def SDL_GetTicks (c : PosixClock) (s : PosixState) : PosixState × Nat :=
  let s := if s.ticks_started then s else SDL_TicksInit c s
  (s, ticksValue s c)

/-- `SDL_GetPerformanceCounter` (POSIX branch, lines 321-354): lazily
initializes; with a monotonic clock returns the raw reading in nanoseconds
(`ticks = now.tv_sec; ticks *= 1000000000; ticks += now.tv_nsec;`), else the
raw `gettimeofday` reading in microseconds — each step a `Uint64`
computation, whose net effect is the exact integer reduced mod `2^64`. -/
def SDL_GetPerformanceCounter (c : PosixClock) (s : PosixState) :
    PosixState × Nat :=
  let s := if s.ticks_started then s else SDL_TicksInit c s
  if s.has_monotonic_time then
    (s, u64 (c.cg_now.tv_sec * 1000000000 + c.cg_now.tv_nsec))
  else
    (s, u64 (c.tv_now.tv_sec * 1000000 + c.tv_now.tv_usec))

/-- `SDL_GetPerformanceFrequency` (POSIX branch, lines 356-375): lazily
initializes; returns `1000000000` with a monotonic clock, else the fallback
`1000000`. -/
def SDL_GetPerformanceFrequency (c : PosixClock) (s : PosixState) :
    PosixState × Nat :=
  let s := if s.ticks_started then s else SDL_TicksInit c s
  if s.has_monotonic_time then (s, 1000000000) else (s, 1000000)

end Posix

/-- One outcome of a `nanosleep(&tv, &elapsed)` call, as the caller observes
it: `success` is return value 0; `intr rem` is return value -1 with
`errno == EINTR` and `rem` written into the second argument (`elapsed`);
`err e` is return value -1 with `errno == e` for some non-interrupt error
(so `e` is understood to differ from `EINTR`), second argument not used. -/
inductive NanosleepResult where
  | success : NanosleepResult
  | intr : Timespec → NanosleepResult
  | err : Nat → NanosleepResult
deriving DecidableEq, Repr

/-- How the `SDL_Delay` retry loop ended: the final `nanosleep` succeeded,
failed with a non-interrupt `errno`, or the supplied finite outcome sequence
was exhausted with every call interrupted. -/
inductive DelayExit where
  | success : DelayExit
  | err : Nat → DelayExit
  | exhausted : DelayExit
deriving DecidableEq, Repr

namespace Posix

/-- The `do { tv = elapsed; was_error = nanosleep(&tv, &elapsed); }
while (was_error && errno == EINTR)` loop of `SDL_Delay` (lines 434-447),
run against a finite sequence of `nanosleep` outcomes.  Returns the list of
durations actually requested from `nanosleep` (the successive values of
`tv`) and how the loop exited. -/
def delayLoop : List NanosleepResult → Timespec → List Timespec × DelayExit
  | [], _ => ([], DelayExit.exhausted)
  | r :: rs, elapsed =>
    match r with
    | NanosleepResult.success => ([elapsed], DelayExit.success)
    | NanosleepResult.err e => ([elapsed], DelayExit.err e)
    | NanosleepResult.intr rem =>
      let p := delayLoop rs rem
      (elapsed :: p.1, p.2)

/-- The initial `elapsed` value of `SDL_Delay`:
`elapsed.tv_sec = ms / 1000; elapsed.tv_nsec = (ms % 1000) * 1000000;`
(lines 430-431), `ms` an unsigned 32-bit value. -/
def delayInit (ms : Nat) : Timespec :=
  Timespec.mk (ms / 1000 : Nat) ((ms % 1000) * 1000000 : Nat)

/-- `SDL_Delay` (POSIX branch, lines 422-450), observed through its
`nanosleep` interactions. -/
def SDL_Delay (ms : Nat) (outs : List NanosleepResult) :
    List Timespec × DelayExit :=
  delayLoop outs (delayInit ms)

/-- `SDL_Delay` with the timer globals threaded through, mirroring that its
body (lines 422-450) references none of `ticks_started`, `start_ts`,
`start_tv`, `has_monotonic_time`: the state passes through untouched and the
observable behaviour is computed without consulting it. -/
def SDL_Delay_threaded (ms : Nat) (outs : List NanosleepResult)
    (s : PosixState) : PosixState × (List Timespec × DelayExit) :=
  (s, SDL_Delay ms outs)

end Posix

/-! ## Windows branch (`#ifdef _WIN32`, non-WinRT) -/

/-- A call the timer code makes into the OS timer-resolution API
(`winmm`): `timeEndPeriod` releases a previously requested period,
`timeBeginPeriod` installs a new one. -/
inductive OsTimerCall where
  | timeEndPeriod : Nat → OsTimerCall
  | timeBeginPeriod : Nat → OsTimerCall
deriving DecidableEq, Repr

/-- The file-scope globals of the Windows branch (`start`, `ticks_started`,
`hires_timer_available`, `hires_start_ticks`, `hires_ticks_per_second`),
plus the function-scope `static UINT timer_period` of
`SDL_SetSystemTimerResolution` and whether the `SDL_HINT_TIMER_RESOLUTION`
hint callback is currently registered. -/
structure WinState where
  start : Nat
  ticks_started : Bool
  hires_timer_available : Bool
  hires_start_ticks : Int
  hires_ticks_per_second : Int
  timer_period : Nat
  hint_cb_registered : Bool
deriving DecidableEq, Repr

/-- Platform clock results for one modelled call on the Windows branch:
whether `QueryPerformanceFrequency` / `QueryPerformanceCounter` return TRUE
and the `QuadPart` values they would store, and the `DWORD` value
`timeGetTime` would return. -/
structure WinClock where
  qpf_ok : Bool
  qpf_val : Int
  qpc_ok : Bool
  qpc_val : Int
  tgt : Nat
deriving DecidableEq, Repr

namespace Win

/-- `SDL_SetSystemTimerResolution` (lines 43-61): when `uPeriod` equals the
current `timer_period`, does nothing; otherwise releases the old nonzero
period via `timeEndPeriod`, records the new period, then installs a nonzero
new period via `timeBeginPeriod`.  Returns the updated state and the OS
calls made, in order. -/
def SDL_SetSystemTimerResolution (uPeriod : Nat) (s : WinState) :
    WinState × List OsTimerCall :=
  if uPeriod ≠ s.timer_period then
    let rel : List OsTimerCall :=
      if s.timer_period ≠ 0 then [OsTimerCall.timeEndPeriod s.timer_period]
      else []
    let ins : List OsTimerCall :=
      if uPeriod ≠ 0 then [OsTimerCall.timeBeginPeriod uPeriod] else []
    ({ s with timer_period := uPeriod }, rel ++ ins)
  else (s, [])

/-- Modelled from the spec: the numeric-parsing collaborator `SDL_atoi`
(only its caller is in `src/`; the spec describes it as
`numeric-parse(string -> i32, invalid -> 0)`, with malformed text parsing
to `0`).  Parses the longest run of leading decimal digits as a number; a
string with no leading digit yields `0`. -/
def SDL_atoi (str : String) : Nat :=
  let rec go : Nat → List Char → Nat
    | acc, ch :: rest =>
      if ch.isDigit then go (acc * 10 + (ch.toNat - 48)) rest else acc
    | acc, [] => acc
  go 0 str.data

/-- The `UINT uPeriod` computation of `SDL_TimerResolutionChanged`
(lines 66-73): `if (hint && *hint) uPeriod = SDL_atoi(hint); else
uPeriod = 1;`. -/
def hintPeriod (hint : Option String) : Nat :=
  match hint with
  | some h => if h ≠ "" then SDL_atoi h else 1
  | none => 1

/-- `SDL_TimerResolutionChanged` (lines 63-77).  `oldValue` and `hint` are
the string values behind the two `const char *` arguments (`none` for a null
pointer); `sameptr` states whether the two arguments are the same pointer,
which is what `oldValue != hint` tests.  Returns the updated state, the OS
timer calls made, and the period passed to `SDL_SetSystemTimerResolution`
(`none` when that call is skipped, per `if (uPeriod || oldValue != hint)`). -/
def SDL_TimerResolutionChanged (oldValue hint : Option String)
    (sameptr : Bool) (s : WinState) :
    WinState × List OsTimerCall × Option Nat :=
  if hintPeriod hint ≠ 0 ∨ sameptr = false then
    ((SDL_SetSystemTimerResolution (hintPeriod hint) s).1,
     (SDL_SetSystemTimerResolution (hintPeriod hint) s).2,
     some (hintPeriod hint))
  else (s, [], none)

/-- `SDL_TicksInit` (Windows branch, lines 79-105): no-op when already
started; otherwise sets `ticks_started`, registers the
`SDL_HINT_TIMER_RESOLUTION` callback, and either captures the
high-resolution frequency and start counter (when
`QueryPerformanceFrequency` succeeds) or falls back to `timeGetTime` for
`start`. -/
def SDL_TicksInit (c : WinClock) (s : WinState) : WinState :=
  if s.ticks_started then s
  else
    let s1 : WinState := { s with ticks_started := true,
                                  hint_cb_registered := true }
    if c.qpf_ok then
      { s1 with hires_timer_available := true,
                hires_ticks_per_second := c.qpf_val,
                hires_start_ticks := c.qpc_val }
    else
      { s1 with hires_timer_available := false, start := c.tgt }

/-- `SDL_TicksQuit` (Windows branch, lines 107-117): unregisters the hint
callback, always releases the timer-resolution request by requesting period
`0`, then clears `start` and `ticks_started`.  Returns the updated state and
the OS timer calls made. -/
def SDL_TicksQuit (s : WinState) : WinState × List OsTimerCall :=
  let s1 : WinState := { s with hint_cb_registered := false }
  let p := SDL_SetSystemTimerResolution 0 s1
  ({ p.1 with start := 0, ticks_started := false }, p.2)

/-- The `Uint32` value `SDL_GetTicks` computes from a (post-init) state and
the current clock readings (lines 129-143): high-resolution path converts
the counter delta to milliseconds in `LONGLONG` arithmetic (C `/` truncates
toward zero) and casts to `DWORD`; the fallback path is `DWORD` wraparound
subtraction `now - start`. -/
def ticksValue (s : WinState) (c : WinClock) : Nat :=
  if s.hires_timer_available then
    u32 (Int.tdiv ((c.qpc_val - s.hires_start_ticks) * 1000)
      s.hires_ticks_per_second)
  else
    u32sub c.tgt s.start

/-- `SDL_GetTicks` (Windows branch, lines 119-144): lazily initializes,
then returns origin-relative milliseconds as `Uint32`. -/
def SDL_GetTicks (c : WinClock) (s : WinState) : WinState × Nat :=
  let s := if s.ticks_started then s else SDL_TicksInit c s
  (s, ticksValue s c)

/-- `SDL_GetPerformanceCounter` (Windows branch, lines 146-155): queries
`QueryPerformanceCounter` directly, with no started-check; on failure falls
back to `SDL_GetTicks()` (whose `Uint32` result zero-extends to `Uint64`),
on success returns the raw `QuadPart`. -/
def SDL_GetPerformanceCounter (c : WinClock) (s : WinState) :
    WinState × Nat :=
  if c.qpc_ok = false then SDL_GetTicks c s
  else (s, u64 c.qpc_val)

/-- `SDL_GetPerformanceFrequency` (Windows branch, lines 157-166): queries
`QueryPerformanceFrequency` directly, with no started-check; on failure
returns the fallback `1000`, on success the raw `QuadPart`. -/
def SDL_GetPerformanceFrequency (c : WinClock) (s : WinState) :
    WinState × Nat :=
  if c.qpf_ok = false then (s, 1000)
  else (s, u64 c.qpf_val)

end Win

/-! ## Derived quantities and concrete states used to instantiate theorems -/

/-- The elapsed milliseconds `SDL_GetTicks` (POSIX monotonic path) computes,
as an exact integer before the `Uint32` reduction. -/
def posixMs (s : PosixState) (c : PosixClock) : Int :=
  (c.cg_now.tv_sec - s.start_ts.tv_sec) * 1000 +
    Int.tdiv (c.cg_now.tv_nsec - s.start_ts.tv_nsec) 1000000

/-- The elapsed milliseconds `SDL_GetTicks` (Windows high-resolution path)
computes, as an exact integer before the `DWORD` cast. -/
def winMs (s : WinState) (c : WinClock) : Int :=
  Int.tdiv ((c.qpc_val - s.hires_start_ticks) * 1000) s.hires_ticks_per_second

/-- The elapsed milliseconds `SDL_GetTicks` (POSIX `gettimeofday` fallback
path) computes, as an exact integer before the `Uint32` cast. -/
def posixWallMs (s : PosixState) (c : PosixClock) : Int :=
  (c.tv_now.tv_sec - s.start_tv.tv_sec) * 1000 +
    Int.tdiv (c.tv_now.tv_usec - s.start_tv.tv_usec) 1000

/-- The elapsed milliseconds `SDL_GetTicks` computes on the POSIX branch,
whichever backend the state selected, as an exact integer before the 32-bit
reduction. -/
def posixTicksMs (s : PosixState) (c : PosixClock) : Int :=
  if s.has_monotonic_time then posixMs s c else posixWallMs s c

/-- The elapsed milliseconds `SDL_GetTicks` computes on the Windows branch,
whichever backend the state selected (`timeGetTime` fallback: the exact
difference `now - start` before `DWORD` wraparound), as an exact integer
before the 32-bit reduction. -/
def winTicksMs (s : WinState) (c : WinClock) : Int :=
  if s.hires_timer_available then winMs s c
  else (c.tgt : Int) - (s.start : Int)

/-- Whether an OS timer call is a `timeBeginPeriod` (an install). -/
def isBeginCall : OsTimerCall → Bool
  | OsTimerCall.timeBeginPeriod _ => true
  | OsTimerCall.timeEndPeriod _ => false

/-- Whether an OS timer call is a `timeEndPeriod` (a release). -/
def isEndCall : OsTimerCall → Bool
  | OsTimerCall.timeEndPeriod _ => true
  | OsTimerCall.timeBeginPeriod _ => false

/-- The loop exit a non-interrupt `nanosleep` outcome produces (the `intr`
case never terminates the loop and is mapped to a dummy value). -/
def terminalExit : NanosleepResult → DelayExit
  | NanosleepResult.success => DelayExit.success
  | NanosleepResult.err e => DelayExit.err e
  | NanosleepResult.intr _ => DelayExit.exhausted

/-- A started POSIX state using the monotonic backend, origin zero. -/
def psMono : PosixState := ⟨⟨0, 0⟩, true, ⟨0, 0⟩, true⟩

/-- A started POSIX state on the `gettimeofday` fallback, origin zero. -/
def psWall : PosixState := ⟨⟨0, 0⟩, false, ⟨0, 0⟩, true⟩

/-- A POSIX state before any initialization. -/
def psFresh : PosixState := ⟨⟨0, 0⟩, false, ⟨0, 0⟩, false⟩

/-- Clock readings just before the 32-bit millisecond counter wraps:
`4294967*1000 + 291 = 4294967291 = 2^32 - 5` milliseconds. -/
def pcA : PosixClock := ⟨true, ⟨4294967, 291000000⟩, ⟨1, 500⟩⟩

/-- Clock readings 10 ms after `pcA`, past the wrap point. -/
def pcB : PosixClock := ⟨true, ⟨4294967, 301000000⟩, ⟨2, 700⟩⟩

/-- A started Windows state with an active timer-resolution request of 5. -/
def wsTP5 : WinState := ⟨0, true, true, 40, 1000, 5, true⟩

/-- A Windows state before any initialization. -/
def wsFresh : WinState := ⟨0, false, false, 0, 0, 5, false⟩

/-- Windows clock readings with both hardware queries succeeding. -/
def wcA : WinClock := ⟨true, 1000, true, 42, 100⟩

/-- Windows clock readings with `QueryPerformanceCounter` failing. -/
def wcNoQpc : WinClock := ⟨true, 1000, false, 0, 100⟩

/-- Windows clock readings with `QueryPerformanceFrequency` failing. -/
def wcNoQpf : WinClock := ⟨false, 0, true, 42, 100⟩

/-- A started Windows state on the `timeGetTime` fallback, origin 100. -/
def wsWall : WinState := ⟨100, true, false, 0, 1, 0, true⟩

/-- Windows clock readings 50 ms of `timeGetTime` after `wcA`. -/
def wcB : WinClock := ⟨true, 1000, true, 42, 150⟩

/-! ## Helper lemmas -/

lemma posix_ticksInit_started (c : PosixClock) (s : PosixState) :
    (Posix.SDL_TicksInit c s).ticks_started = true := by
  unfold Posix.SDL_TicksInit
  by_cases h : s.ticks_started
  · simp [h]
  · by_cases hc : c.cg_ok <;> simp [h, hc]

lemma win_ticksInit_started (c : WinClock) (s : WinState) :
    (Win.SDL_TicksInit c s).ticks_started = true := by
  unfold Win.SDL_TicksInit
  by_cases h : s.ticks_started
  · simp [h]
  · by_cases hc : c.qpf_ok <;> simp [h, hc]

lemma posix_ticksInit_of_started {s : PosixState} (c : PosixClock)
    (h : s.ticks_started = true) : Posix.SDL_TicksInit c s = s := by
  simp [Posix.SDL_TicksInit, h]

lemma win_ticksInit_of_started {s : WinState} (c : WinClock)
    (h : s.ticks_started = true) : Win.SDL_TicksInit c s = s := by
  simp [Win.SDL_TicksInit, h]

lemma u32_cast (a : Int) : ((u32 a : Nat) : Int) = a % (2 ^ 32 : Int) := by
  unfold u32
  exact Int.toNat_of_nonneg (Int.emod_nonneg a (by norm_num))

/-- Wrap-safe unsigned subtraction of two reduced readings recovers the
exact difference of the unreduced values, provided it fits in 32 bits. -/
lemma u32sub_wrap (a b : Int) (h0 : 0 ≤ a - b) (h1 : a - b < 2 ^ 32) :
    u32sub (u32 a) (u32 b) = (a - b).toNat := by
  unfold u32sub
  rw [u32_cast a, u32_cast b]
  unfold u32
  have h2 : (a % (2 ^ 32 : Int) - b % (2 ^ 32 : Int)) % (2 ^ 32 : Int) =
      (a - b) % (2 ^ 32 : Int) := (Int.sub_emod a b _).symm
  rw [h2, Int.emod_eq_of_lt h0 h1]

lemma posix_ticksValue_eq (s : PosixState) (c : PosixClock) :
    Posix.ticksValue s c = u32 (posixTicksMs s c) := by
  unfold Posix.ticksValue posixTicksMs posixMs posixWallMs
  by_cases h : s.has_monotonic_time <;> simp [h]

lemma win_ticksValue_eq (s : WinState) (c : WinClock) :
    Win.ticksValue s c = u32 (winTicksMs s c) := by
  unfold Win.ticksValue winTicksMs winMs u32sub
  by_cases h : s.hires_timer_available <;> simp [h]

lemma posix_lazy_started (c : PosixClock) (s : PosixState) :
    (if s.ticks_started then s else Posix.SDL_TicksInit c s).ticks_started
      = true := by
  by_cases h : s.ticks_started
  · simp [h]
  · simp [h, posix_ticksInit_started]

lemma win_lazy_started (c : WinClock) (s : WinState) :
    (if s.ticks_started then s else Win.SDL_TicksInit c s).ticks_started
      = true := by
  by_cases h : s.ticks_started
  · simp [h]
  · simp [h, win_ticksInit_started]

lemma posix_getTicks_fst (c : PosixClock) (s : PosixState) :
    (Posix.SDL_GetTicks c s).1 =
      if s.ticks_started then s else Posix.SDL_TicksInit c s := rfl

lemma win_getTicks_fst (c : WinClock) (s : WinState) :
    (Win.SDL_GetTicks c s).1 =
      if s.ticks_started then s else Win.SDL_TicksInit c s := rfl

lemma posix_perfCounter_fst (c : PosixClock) (s : PosixState) :
    (Posix.SDL_GetPerformanceCounter c s).1 =
      if s.ticks_started then s else Posix.SDL_TicksInit c s := by
  simp only [Posix.SDL_GetPerformanceCounter]
  split <;> split <;> rfl

lemma posix_perfFrequency_fst (c : PosixClock) (s : PosixState) :
    (Posix.SDL_GetPerformanceFrequency c s).1 =
      if s.ticks_started then s else Posix.SDL_TicksInit c s := by
  simp only [Posix.SDL_GetPerformanceFrequency]
  split <;> split <;> rfl

lemma delayLoop_spec (pre : List Timespec) (t : NanosleepResult)
    (rest : List NanosleepResult) (ht : ∀ r, t ≠ NanosleepResult.intr r)
    (e : Timespec) :
    Posix.delayLoop (pre.map NanosleepResult.intr ++ t :: rest) e =
      (e :: pre, terminalExit t) := by
  induction pre generalizing e with
  | nil =>
    cases t with
    | success => simp [Posix.delayLoop, terminalExit]
    | err e2 => simp [Posix.delayLoop, terminalExit]
    | intr r => exact absurd rfl (ht r)
  | cons r pre ih =>
    simp [Posix.delayLoop, ih]

/-! ## Claims -/

/-- C1: `SDL_TicksInit` is idempotent on both branches: a call in an
already-started state is a no-op that leaves the whole state — in particular
the captured origin (`start` / `start_ts` / `start_tv` /
`hires_start_ticks`), the backend flag (`hires_timer_available` /
`has_monotonic_time`) and the frequency (`hires_ticks_per_second`) —
unchanged, and two successive calls produce exactly the state one call
produces. -/
theorem C1_ticksInit_idempotent :
    (∀ (c : PosixClock) (s : PosixState), s.ticks_started = true →
      Posix.SDL_TicksInit c s = s) ∧
    (∀ (c1 c2 : PosixClock) (s : PosixState),
      Posix.SDL_TicksInit c2 (Posix.SDL_TicksInit c1 s) =
        Posix.SDL_TicksInit c1 s) ∧
    (∀ (c : WinClock) (s : WinState), s.ticks_started = true →
      Win.SDL_TicksInit c s = s) ∧
    (∀ (c1 c2 : WinClock) (s : WinState),
      Win.SDL_TicksInit c2 (Win.SDL_TicksInit c1 s) =
        Win.SDL_TicksInit c1 s) := by
  refine ⟨?_, ?_, ?_, ?_⟩
  · intro c s h; exact posix_ticksInit_of_started c h
  · intro c1 c2 s
    exact posix_ticksInit_of_started c2 (posix_ticksInit_started c1 s)
  · intro c s h; exact win_ticksInit_of_started c h
  · intro c1 c2 s
    exact win_ticksInit_of_started c2 (win_ticksInit_started c1 s)

/-- C1 witness: the theorem instantiated at concrete started states. -/
theorem C1_ticksInit_idempotent_witness :
    Posix.SDL_TicksInit pcA psMono = psMono ∧
    Win.SDL_TicksInit wcA wsTP5 = wsTP5 :=
  ⟨C1_ticksInit_idempotent.1 pcA psMono rfl,
   C1_ticksInit_idempotent.2.2.1 wcA wsTP5 rfl⟩

/-- C5: `SDL_SetSystemTimerResolution` is idempotent with respect to the
recorded `timer_period`: a call with the current period makes no OS request
and leaves the state unchanged; a call with a different period records the
new period, releases the old period first (and only when it was nonzero),
installs the new period last (and only when it is nonzero), and every
`timeEndPeriod` call strictly precedes every `timeBeginPeriod` call. -/
theorem C5_setSystemTimerResolution_idempotent (p : Nat) (s : WinState) :
    (p = s.timer_period →
      Win.SDL_SetSystemTimerResolution p s = (s, [])) ∧
    (p ≠ s.timer_period →
      (Win.SDL_SetSystemTimerResolution p s).1.timer_period = p ∧
      (s.timer_period ≠ 0 →
        (Win.SDL_SetSystemTimerResolution p s).2.head? =
          some (OsTimerCall.timeEndPeriod s.timer_period)) ∧
      (s.timer_period = 0 →
        ∀ q, OsTimerCall.timeEndPeriod q ∉
          (Win.SDL_SetSystemTimerResolution p s).2) ∧
      (p ≠ 0 →
        (Win.SDL_SetSystemTimerResolution p s).2.getLast? =
          some (OsTimerCall.timeBeginPeriod p)) ∧
      (p = 0 →
        ∀ q, OsTimerCall.timeBeginPeriod q ∉
          (Win.SDL_SetSystemTimerResolution p s).2) ∧
      List.Pairwise (fun x y => ¬(isBeginCall x = true ∧ isEndCall y = true))
        (Win.SDL_SetSystemTimerResolution p s).2) := by
  constructor
  · intro h
    simp [Win.SDL_SetSystemTimerResolution, h]
  · intro h
    by_cases h0 : s.timer_period = 0 <;> by_cases hp : p = 0 <;>
      refine ⟨?_, ?_, ?_, ?_, ?_, ?_⟩ <;>
      simp_all [Win.SDL_SetSystemTimerResolution, isBeginCall, isEndCall]

/-- C5 witness: changing the period from 5 to 3 releases 5 first and
installs 3; re-requesting 5 is a no-op. -/
theorem C5_setSystemTimerResolution_idempotent_witness :
    Win.SDL_SetSystemTimerResolution 5 wsTP5 = (wsTP5, []) ∧
    (Win.SDL_SetSystemTimerResolution 3 wsTP5).1.timer_period = 3 ∧
    (Win.SDL_SetSystemTimerResolution 3 wsTP5).2.head? =
      some (OsTimerCall.timeEndPeriod 5) ∧
    (Win.SDL_SetSystemTimerResolution 3 wsTP5).2.getLast? =
      some (OsTimerCall.timeBeginPeriod 3) :=
  ⟨(C5_setSystemTimerResolution_idempotent 5 wsTP5).1 rfl,
   ((C5_setSystemTimerResolution_idempotent 3 wsTP5).2 (by decide)).1,
   ((C5_setSystemTimerResolution_idempotent 3 wsTP5).2 (by decide)).2.1
     (by decide),
   ((C5_setSystemTimerResolution_idempotent 3 wsTP5).2 (by decide)).2.2.2.1
     (by decide)⟩

/-- C10: the POSIX `SDL_Delay` neither reads nor writes the timer globals:
the state (in particular `ticks_started`, the origins and
`has_monotonic_time`) passes through unchanged, and its observable behaviour
is the same in every state, initialized or not. -/
theorem C10_delay_no_state_effect (ms : Nat) (outs : List NanosleepResult)
    (s : PosixState) :
    (Posix.SDL_Delay_threaded ms outs s).1 = s ∧
    (Posix.SDL_Delay_threaded ms outs s).1.ticks_started = s.ticks_started ∧
    (Posix.SDL_Delay_threaded ms outs s).1.start_ts = s.start_ts ∧
    (Posix.SDL_Delay_threaded ms outs s).1.start_tv = s.start_tv ∧
    (Posix.SDL_Delay_threaded ms outs s).1.has_monotonic_time =
      s.has_monotonic_time ∧
    (∀ s2 : PosixState, (Posix.SDL_Delay_threaded ms outs s2).2 =
      (Posix.SDL_Delay_threaded ms outs s).2) :=
  ⟨rfl, rfl, rfl, rfl, rfl, fun _ => rfl⟩

/-- C2: on both branches and on every backend (POSIX monotonic or
`gettimeofday` fallback, Windows high-resolution or `timeGetTime`
fallback), `SDL_GetTicks` in a started state returns the elapsed
milliseconds since the captured origin reduced modulo `2^32`, and for two
readings whose unreduced difference is non-negative and below `2^32` (less
than one wrap period apart), the wrap-safe unsigned difference
`(u32)(t2 - t1)` recovers that exact difference — also when `t1` is near
`0xFFFFFFFF` and `t2` is taken after the counter wraps. -/
theorem C2_getTicks_wrap_safe :
    (∀ (s : PosixState) (c1 c2 : PosixClock),
      s.ticks_started = true →
      (Posix.SDL_GetTicks c1 s).2 = u32 (posixTicksMs s c1) ∧
      (0 ≤ posixTicksMs s c2 - posixTicksMs s c1 →
        posixTicksMs s c2 - posixTicksMs s c1 < 2 ^ 32 →
        u32sub (Posix.SDL_GetTicks c2 s).2 (Posix.SDL_GetTicks c1 s).2 =
          (posixTicksMs s c2 - posixTicksMs s c1).toNat)) ∧
    (∀ (s : WinState) (c1 c2 : WinClock),
      s.ticks_started = true →
      (Win.SDL_GetTicks c1 s).2 = u32 (winTicksMs s c1) ∧
      (0 ≤ winTicksMs s c2 - winTicksMs s c1 →
        winTicksMs s c2 - winTicksMs s c1 < 2 ^ 32 →
        u32sub (Win.SDL_GetTicks c2 s).2 (Win.SDL_GetTicks c1 s).2 =
          (winTicksMs s c2 - winTicksMs s c1).toNat)) := by
  constructor
  · intro s c1 c2 hs
    have g : ∀ c : PosixClock,
        (Posix.SDL_GetTicks c s).2 = u32 (posixTicksMs s c) := by
      intro c
      simp [Posix.SDL_GetTicks, hs, posix_ticksValue_eq]
    refine ⟨g c1, fun h0 h1 => ?_⟩
    rw [g c1, g c2]
    exact u32sub_wrap _ _ h0 h1
  · intro s c1 c2 hs
    have g : ∀ c : WinClock,
        (Win.SDL_GetTicks c s).2 = u32 (winTicksMs s c) := by
      intro c
      simp [Win.SDL_GetTicks, hs, win_ticksValue_eq]
    refine ⟨g c1, fun h0 h1 => ?_⟩
    rw [g c1, g c2]
    exact u32sub_wrap _ _ h0 h1

/-- C2 witness: on the monotonic backend with origin zero, reading `pcA`
gives `t1 = 2^32 - 5` and reading `pcB` (10 ms later) gives `t2 = 5` after
the wrap, and the wrap-safe difference is the true delta `10`, not a huge
value; the `gettimeofday` and `timeGetTime` fallback backends recover their
exact deltas as well. -/
theorem C2_getTicks_wrap_safe_witness :
    (Posix.SDL_GetTicks pcA psMono).2 = 4294967291 ∧
    (Posix.SDL_GetTicks pcB psMono).2 = 5 ∧
    u32sub (Posix.SDL_GetTicks pcB psMono).2
      (Posix.SDL_GetTicks pcA psMono).2 = 10 ∧
    u32sub (Posix.SDL_GetTicks pcB psWall).2
      (Posix.SDL_GetTicks pcA psWall).2 = 1000 ∧
    u32sub (Win.SDL_GetTicks wcB wsWall).2
      (Win.SDL_GetTicks wcA wsWall).2 = 50 := by
  have h := C2_getTicks_wrap_safe.1 psMono pcA pcB rfl
  have hw := C2_getTicks_wrap_safe.1 psWall pcA pcB rfl
  have hwin := C2_getTicks_wrap_safe.2 wsWall wcA wcB rfl
  refine ⟨?_, ?_, ?_, ?_, ?_⟩
  · rw [h.1]; decide
  · rw [(C2_getTicks_wrap_safe.1 psMono pcB pcA rfl).1]; decide
  · rw [h.2 (by decide) (by decide)]; decide
  · rw [hw.2 (by decide) (by decide)]; decide
  · rw [hwin.2 (by decide) (by decide)]; decide

/-- C3: the POSIX `SDL_Delay` retry loop, run against any finite sequence
of `nanosleep` outcomes consisting of interruptions followed by a first
non-interrupt outcome, re-sleeps after each interruption for exactly the
remaining duration the sleep primitive wrote back (the request trace is the
initial duration followed by the successive remainders), exits at that
first success or non-interrupt error without consuming any further
outcome, and thus makes exactly one call per interruption plus one. -/
theorem C3_delay_retry_loop (ms : Nat) (pre : List Timespec)
    (t : NanosleepResult) (rest : List NanosleepResult)
    (ht : ∀ r, t ≠ NanosleepResult.intr r) :
    Posix.SDL_Delay ms (pre.map NanosleepResult.intr ++ t :: rest) =
      (Posix.delayInit ms :: pre, terminalExit t) ∧
    (Posix.SDL_Delay ms (pre.map NanosleepResult.intr ++ t :: rest)).1.length
      = pre.length + 1 := by
  have h := delayLoop_spec pre t rest ht (Posix.delayInit ms)
  exact ⟨h, by simp [Posix.SDL_Delay, h]⟩

/-- C3 witness: `delay(2500)` first requests 2.5 s; one interruption with
0.3 s remaining makes it re-request exactly 0.3 s; the following success
ends the loop without consuming the remaining outcome. -/
theorem C3_delay_retry_loop_witness :
    Posix.SDL_Delay 2500
      ([Timespec.mk 0 300000000].map NanosleepResult.intr ++
        NanosleepResult.success :: [NanosleepResult.err 22]) =
      ([Posix.delayInit 2500, Timespec.mk 0 300000000],
        DelayExit.success) := by
  have h := (C3_delay_retry_loop 2500 [Timespec.mk 0 300000000]
    NanosleepResult.success [NanosleepResult.err 22]
    (fun r hr => NanosleepResult.noConfusion hr)).1
  simpa [terminalExit] using h

/-- C4 counterexample: the claim — every invocation with non-empty hint
requests exactly the parsed period, including `0` — fails on the code: when
the hint parses to `0` (here `"abc"`) and `oldValue` is the same pointer as
`hint`, the guard `if (uPeriod || oldValue != hint)` skips
`SDL_SetSystemTimerResolution` entirely, so no request of period `0` is
made (and the active period-5 request stays in place). -/
theorem C4_counterexample :
    (Win.SDL_TimerResolutionChanged (some "abc") (some "abc") true
      wsTP5).2.2 = none ∧
    (Win.SDL_TimerResolutionChanged (some "abc") (some "abc") true
      wsTP5).1.timer_period = 5 ∧
    (Win.SDL_TimerResolutionChanged (some "abc") (some "abc") true
      wsTP5).2.1 = [] ∧
    (none : Option Nat) ≠ some 0 := by
  refine ⟨by decide, by decide, by decide, by decide⟩

/-- C4 (amended): the resolution-hint callback requests period `1` when the
hint is absent or empty; a non-empty hint is parsed by the numeric
collaborator (malformed text parsing to `0`) and the parsed period is
requested exactly whenever it is nonzero, or whenever it is `0` but the
`oldValue` pointer differs from the `hint` pointer; when the parsed period
is `0` and the two pointers coincide, no request at all is made.  Whenever
a request is made, its effect is exactly `setSystemTimerResolution` of the
recorded period. -/
theorem C4_resolution_hint_policy (oldValue hint : Option String)
    (sameptr : Bool) (s : WinState) :
    (hint = none →
      (Win.SDL_TimerResolutionChanged oldValue hint sameptr s).2.2 =
        some 1) ∧
    (hint = some "" →
      (Win.SDL_TimerResolutionChanged oldValue hint sameptr s).2.2 =
        some 1) ∧
    (∀ h2, hint = some h2 → h2 ≠ "" → Win.SDL_atoi h2 ≠ 0 →
      (Win.SDL_TimerResolutionChanged oldValue hint sameptr s).2.2 =
        some (Win.SDL_atoi h2)) ∧
    (∀ h2, hint = some h2 → h2 ≠ "" → Win.SDL_atoi h2 = 0 →
      sameptr = false →
      (Win.SDL_TimerResolutionChanged oldValue hint sameptr s).2.2 =
        some 0) ∧
    (∀ h2, hint = some h2 → h2 ≠ "" → Win.SDL_atoi h2 = 0 →
      sameptr = true →
      Win.SDL_TimerResolutionChanged oldValue hint sameptr s =
        (s, [], none)) ∧
    (∀ per,
      (Win.SDL_TimerResolutionChanged oldValue hint sameptr s).2.2 =
        some per →
      (Win.SDL_TimerResolutionChanged oldValue hint sameptr s).1 =
        (Win.SDL_SetSystemTimerResolution per s).1 ∧
      (Win.SDL_TimerResolutionChanged oldValue hint sameptr s).2.1 =
        (Win.SDL_SetSystemTimerResolution per s).2) := by
  refine ⟨?_, ?_, ?_, ?_, ?_, ?_⟩
  · rintro rfl
    simp [Win.SDL_TimerResolutionChanged, Win.hintPeriod]
  · rintro rfl
    simp [Win.SDL_TimerResolutionChanged, Win.hintPeriod]
  · rintro h2 rfl hne h0
    simp [Win.SDL_TimerResolutionChanged, Win.hintPeriod, hne, h0]
  · rintro h2 rfl hne h0 rfl
    simp [Win.SDL_TimerResolutionChanged, Win.hintPeriod, hne, h0]
  · rintro h2 rfl hne h0 rfl
    simp [Win.SDL_TimerResolutionChanged, Win.hintPeriod, hne, h0]
  · intro per hper
    by_cases hc : Win.hintPeriod hint ≠ 0 ∨ sameptr = false
    · rw [Win.SDL_TimerResolutionChanged, if_pos hc] at hper ⊢
      simp only [Option.some.injEq] at hper
      subst hper
      exact ⟨rfl, rfl⟩
    · rw [Win.SDL_TimerResolutionChanged, if_neg hc] at hper
      exact absurd hper (by simp)

/-- C4 witness: hint `"5"` requests period 5; empty or absent hints request
period 1; hint `"abc"` on a genuine value change (different pointers)
requests period 0. -/
theorem C4_resolution_hint_policy_witness :
    (Win.SDL_TimerResolutionChanged (some "old") (some "5") false
      wsTP5).2.2 = some 5 ∧
    (Win.SDL_TimerResolutionChanged (some "") (some "") true
      wsTP5).2.2 = some 1 ∧
    (Win.SDL_TimerResolutionChanged none none true wsTP5).2.2 = some 1 ∧
    (Win.SDL_TimerResolutionChanged (some "1") (some "abc") false
      wsTP5).2.2 = some 0 := by
  refine ⟨?_, ?_, ?_, ?_⟩
  · rw [(C4_resolution_hint_policy (some "old") (some "5") false
      wsTP5).2.2.1 "5" rfl (by decide) (by decide)]
    decide
  · exact (C4_resolution_hint_policy (some "") (some "") true
      wsTP5).2.1 rfl
  · exact (C4_resolution_hint_policy none none true wsTP5).1 rfl
  · exact (C4_resolution_hint_policy (some "1") (some "abc") false
      wsTP5).2.2.2.1 "abc" rfl (by decide) (by decide) rfl

/-- C6 counterexample: the claim — with no high-resolution counter the
performance counter returns exactly the `getTicks` value widened to u64 —
fails on the POSIX branch: in a started fallback state with origin zero,
at `gettimeofday` reading 1 s + 500 µs the performance counter returns the
raw microsecond reading 1000500 while `getTicks` returns 1000. -/
theorem C6_counterexample :
    (Posix.SDL_GetPerformanceCounter pcA psWall).2 = 1000500 ∧
    (Posix.SDL_GetTicks pcA psWall).2 = 1000 ∧
    (1000500 : Nat) ≠ 1000 := by
  refine ⟨by decide, by decide, by decide⟩

/-- C6 (amended): `SDL_GetPerformanceCounter` returns the backend's raw
counter value, not relative to the initialization origin, whenever a
high-resolution source exists (POSIX monotonic: nanoseconds of the raw
reading; Windows: the raw `QueryPerformanceCounter` value).  Without one,
the Windows branch returns exactly the `SDL_GetTicks()` value widened to
u64, while the POSIX branch returns the raw `gettimeofday` reading in
microseconds, which is not the `getTicks` value. -/
theorem C6_perf_counter_raw :
    (∀ (c : PosixClock) (s : PosixState),
      s.ticks_started = true → s.has_monotonic_time = true →
      (Posix.SDL_GetPerformanceCounter c s).2 =
        u64 (c.cg_now.tv_sec * 1000000000 + c.cg_now.tv_nsec)) ∧
    (∀ (c : PosixClock) (s : PosixState),
      s.ticks_started = true → s.has_monotonic_time = false →
      (Posix.SDL_GetPerformanceCounter c s).2 =
        u64 (c.tv_now.tv_sec * 1000000 + c.tv_now.tv_usec)) ∧
    (∀ (c : WinClock) (s : WinState), c.qpc_ok = true →
      Win.SDL_GetPerformanceCounter c s = (s, u64 c.qpc_val)) ∧
    (∀ (c : WinClock) (s : WinState), c.qpc_ok = false →
      Win.SDL_GetPerformanceCounter c s = Win.SDL_GetTicks c s) := by
  refine ⟨?_, ?_, ?_, ?_⟩
  · intro c s hs hm
    simp [Posix.SDL_GetPerformanceCounter, hs, hm]
  · intro c s hs hm
    simp [Posix.SDL_GetPerformanceCounter, hs, hm]
  · intro c s hq
    simp [Win.SDL_GetPerformanceCounter, hq]
  · intro c s hq
    simp [Win.SDL_GetPerformanceCounter, hq]

/-- C6 witness: a raw monotonic reading, and the Windows fallback equal to
`SDL_GetTicks`. -/
theorem C6_perf_counter_raw_witness :
    (Posix.SDL_GetPerformanceCounter pcA psMono).2 = 4294967291000000 ∧
    Win.SDL_GetPerformanceCounter wcNoQpc wsTP5 =
      Win.SDL_GetTicks wcNoQpc wsTP5 := by
  constructor
  · rw [C6_perf_counter_raw.1 pcA psMono rfl rfl]
    decide
  · exact C6_perf_counter_raw.2.2.2 wcNoQpc wsTP5 rfl

/-- C7: `SDL_GetPerformanceFrequency` reports the fixed frequency of the
source the performance counter uses, returns exactly the documented
fallback constant when no high-resolution frequency query succeeded
(`1000000` on the POSIX branch without a monotonic clock, `1000` on the
Windows branch when `QueryPerformanceFrequency` fails), and its result is
strictly positive — on POSIX unconditionally, on Windows whenever the
successful hardware query reports a positive 64-bit frequency, as the OS
guarantees. -/
theorem C7_perf_frequency :
    (∀ (c : PosixClock) (s : PosixState),
      s.ticks_started = true → s.has_monotonic_time = true →
      Posix.SDL_GetPerformanceFrequency c s = (s, 1000000000)) ∧
    (∀ (c : PosixClock) (s : PosixState),
      s.ticks_started = true → s.has_monotonic_time = false →
      Posix.SDL_GetPerformanceFrequency c s = (s, 1000000)) ∧
    (∀ (c : PosixClock) (s : PosixState),
      0 < (Posix.SDL_GetPerformanceFrequency c s).2) ∧
    (∀ (c : WinClock) (s : WinState), c.qpf_ok = false →
      Win.SDL_GetPerformanceFrequency c s = (s, 1000)) ∧
    (∀ (c : WinClock) (s : WinState), c.qpf_ok = true →
      0 ≤ c.qpf_val → c.qpf_val < 2 ^ 64 →
      (Win.SDL_GetPerformanceFrequency c s).2 = c.qpf_val.toNat) ∧
    (∀ (c : WinClock) (s : WinState), c.qpf_ok = true →
      0 < c.qpf_val → c.qpf_val < 2 ^ 64 →
      0 < (Win.SDL_GetPerformanceFrequency c s).2) := by
  refine ⟨?_, ?_, ?_, ?_, ?_, ?_⟩
  · intro c s hs hm
    simp [Posix.SDL_GetPerformanceFrequency, hs, hm]
  · intro c s hs hm
    simp [Posix.SDL_GetPerformanceFrequency, hs, hm]
  · intro c s
    simp only [Posix.SDL_GetPerformanceFrequency]
    split <;> split <;> norm_num
  · intro c s hq
    simp [Win.SDL_GetPerformanceFrequency, hq]
  · intro c s hq h0 h1
    have h2 : Win.SDL_GetPerformanceFrequency c s = (s, u64 c.qpf_val) := by
      simp [Win.SDL_GetPerformanceFrequency, hq]
    rw [h2]
    unfold u64
    rw [Int.emod_eq_of_lt h0 h1]
  · intro c s hq h0 h1
    have h2 : Win.SDL_GetPerformanceFrequency c s = (s, u64 c.qpf_val) := by
      simp [Win.SDL_GetPerformanceFrequency, hq]
    rw [h2]
    unfold u64
    rw [Int.emod_eq_of_lt (le_of_lt h0) h1]
    omega

/-- C7 witness: the POSIX and Windows fallback constants, and positivity on
both branches. -/
theorem C7_perf_frequency_witness :
    Posix.SDL_GetPerformanceFrequency pcA psWall = (psWall, 1000000) ∧
    0 < (Posix.SDL_GetPerformanceFrequency pcA psMono).2 ∧
    Win.SDL_GetPerformanceFrequency wcNoQpf wsTP5 = (wsTP5, 1000) ∧
    (Win.SDL_GetPerformanceFrequency wcA wsTP5).2 = 1000 ∧
    0 < (Win.SDL_GetPerformanceFrequency wcA wsTP5).2 := by
  refine ⟨?_, ?_, ?_, ?_, ?_⟩
  · exact C7_perf_frequency.2.1 pcA psWall rfl rfl
  · exact C7_perf_frequency.2.2.1 pcA psMono
  · exact C7_perf_frequency.2.2.2.1 wcNoQpf wsTP5 rfl
  · rw [C7_perf_frequency.2.2.2.2.1 wcA wsTP5 rfl (by decide) (by decide)]
    decide
  · exact C7_perf_frequency.2.2.2.2.2 wcA wsTP5 rfl (by decide) (by decide)

/-- C8 counterexample: the claim — every public query triggers lazy
initialization, leaving `started = true` — fails on the Windows branch: in
an uninitialized state, `SDL_GetPerformanceCounter` with a succeeding
`QueryPerformanceCounter` and `SDL_GetPerformanceFrequency` never consult
`ticks_started`, and the state stays uninitialized after they return. -/
theorem C8_counterexample :
    wsFresh.ticks_started = false ∧
    (Win.SDL_GetPerformanceCounter wcA wsFresh).1.ticks_started = false ∧
    (Win.SDL_GetPerformanceFrequency wcA wsFresh).1.ticks_started =
      false := by
  refine ⟨rfl, by decide, by decide⟩

/-- C8 (amended): on the POSIX branch all three public queries
(`getTicks`, `getPerformanceCounter`, `getPerformanceFrequency`) lazily
initialize, so `started = true` after any of them returns; on the Windows
branch only `getTicks` does so directly — `getPerformanceCounter` reaches
initialization only through its `getTicks` fallback when
`QueryPerformanceCounter` fails, and `getPerformanceFrequency` leaves the
state untouched. -/
theorem C8_lazy_init :
    (∀ (c : PosixClock) (s : PosixState),
      (Posix.SDL_GetTicks c s).1.ticks_started = true) ∧
    (∀ (c : PosixClock) (s : PosixState),
      (Posix.SDL_GetPerformanceCounter c s).1.ticks_started = true) ∧
    (∀ (c : PosixClock) (s : PosixState),
      (Posix.SDL_GetPerformanceFrequency c s).1.ticks_started = true) ∧
    (∀ (c : WinClock) (s : WinState),
      (Win.SDL_GetTicks c s).1.ticks_started = true) ∧
    (∀ (c : WinClock) (s : WinState), c.qpc_ok = false →
      (Win.SDL_GetPerformanceCounter c s).1.ticks_started = true) ∧
    (∀ (c : WinClock) (s : WinState), c.qpc_ok = true →
      (Win.SDL_GetPerformanceCounter c s).1 = s) ∧
    (∀ (c : WinClock) (s : WinState),
      (Win.SDL_GetPerformanceFrequency c s).1 = s) := by
  refine ⟨?_, ?_, ?_, ?_, ?_, ?_, ?_⟩
  · intro c s
    rw [posix_getTicks_fst]
    exact posix_lazy_started c s
  · intro c s
    rw [posix_perfCounter_fst]
    exact posix_lazy_started c s
  · intro c s
    rw [posix_perfFrequency_fst]
    exact posix_lazy_started c s
  · intro c s
    rw [win_getTicks_fst]
    exact win_lazy_started c s
  · intro c s hq
    have h2 : Win.SDL_GetPerformanceCounter c s = Win.SDL_GetTicks c s := by
      simp [Win.SDL_GetPerformanceCounter, hq]
    rw [h2, win_getTicks_fst]
    exact win_lazy_started c s
  · intro c s hq
    simp [Win.SDL_GetPerformanceCounter, hq]
  · intro c s
    simp only [Win.SDL_GetPerformanceFrequency]
    split <;> rfl

/-- C8 witness: the POSIX queries initialize an uninitialized state; the
Windows performance counter initializes when its hardware query fails. -/
theorem C8_lazy_init_witness :
    (Posix.SDL_GetTicks pcA psFresh).1.ticks_started = true ∧
    (Posix.SDL_GetPerformanceCounter pcA psFresh).1.ticks_started = true ∧
    (Posix.SDL_GetPerformanceFrequency pcA psFresh).1.ticks_started =
      true ∧
    (Win.SDL_GetPerformanceCounter wcNoQpc wsFresh).1.ticks_started =
      true ∧
    (Win.SDL_GetPerformanceCounter wcA wsTP5).1 = wsTP5 :=
  ⟨C8_lazy_init.1 pcA psFresh,
   C8_lazy_init.2.1 pcA psFresh,
   C8_lazy_init.2.2.1 pcA psFresh,
   C8_lazy_init.2.2.2.2.1 wcNoQpc wsFresh rfl,
   C8_lazy_init.2.2.2.2.2.1 wcA wsTP5 rfl⟩

/-- C9: teardown and re-initialization.  The Windows `SDL_TicksQuit`
clears `started`, unregisters the resolution-hint callback, and releases
any active timer-resolution request by requesting period 0 (issuing exactly
the release of the old nonzero period and never an install); the POSIX
`SDL_TicksQuit` clears `started`.  Re-initialization is legal: on either
branch, `ticksInit` after `ticksQuit` captures a fresh origin from the
clock of the reinit call, and `getTicks` evaluated at that same clock
reading returns exactly 0.  (On the POSIX fallback path the pre-quit state
must already be on the fallback backend, since the C code never clears
`has_monotonic_time`; clock availability is fixed across a run.) -/
theorem C9_quit_reinit :
    (∀ s : WinState,
      (Win.SDL_TicksQuit s).1.ticks_started = false ∧
      (Win.SDL_TicksQuit s).1.hint_cb_registered = false ∧
      (Win.SDL_TicksQuit s).1.timer_period = 0 ∧
      (s.timer_period ≠ 0 → (Win.SDL_TicksQuit s).2 =
        [OsTimerCall.timeEndPeriod s.timer_period]) ∧
      (s.timer_period = 0 → (Win.SDL_TicksQuit s).2 = [])) ∧
    (∀ s : PosixState, (Posix.SDL_TicksQuit s).ticks_started = false) ∧
    (∀ (c : PosixClock) (s : PosixState), c.cg_ok = true →
      (Posix.SDL_TicksInit c (Posix.SDL_TicksQuit s)).ticks_started =
        true ∧
      (Posix.SDL_TicksInit c (Posix.SDL_TicksQuit s)).start_ts =
        c.cg_now ∧
      (Posix.SDL_GetTicks c
        (Posix.SDL_TicksInit c (Posix.SDL_TicksQuit s))).2 = 0) ∧
    (∀ (c : PosixClock) (s : PosixState), c.cg_ok = false →
      s.has_monotonic_time = false →
      (Posix.SDL_TicksInit c (Posix.SDL_TicksQuit s)).start_tv =
        c.tv_now ∧
      (Posix.SDL_GetTicks c
        (Posix.SDL_TicksInit c (Posix.SDL_TicksQuit s))).2 = 0) ∧
    (∀ (c : WinClock) (s : WinState), c.qpf_ok = true →
      (Win.SDL_TicksInit c (Win.SDL_TicksQuit s).1).hires_start_ticks =
        c.qpc_val ∧
      (Win.SDL_GetTicks c
        (Win.SDL_TicksInit c (Win.SDL_TicksQuit s).1)).2 = 0) ∧
    (∀ (c : WinClock) (s : WinState), c.qpf_ok = false →
      (Win.SDL_TicksInit c (Win.SDL_TicksQuit s).1).start = c.tgt ∧
      (Win.SDL_GetTicks c
        (Win.SDL_TicksInit c (Win.SDL_TicksQuit s).1)).2 = 0) := by
  refine ⟨?_, ?_, ?_, ?_, ?_, ?_⟩
  · intro s
    by_cases h0 : s.timer_period = 0
    · refine ⟨?_, ?_, ?_, ?_, ?_⟩ <;>
        simp [Win.SDL_TicksQuit, Win.SDL_SetSystemTimerResolution, h0]
    · have h1 : ¬(0 = s.timer_period) := fun h => h0 h.symm
      refine ⟨?_, ?_, ?_, ?_, ?_⟩ <;>
        simp [Win.SDL_TicksQuit, Win.SDL_SetSystemTimerResolution, h0, h1]
  · intro s
    rfl
  · intro c s hc
    refine ⟨?_, ?_, ?_⟩ <;>
      simp [Posix.SDL_TicksInit, Posix.SDL_TicksQuit, Posix.SDL_GetTicks,
        Posix.ticksValue, posixMs, hc, u32]
  · intro c s hc hm
    refine ⟨?_, ?_⟩ <;>
      simp [Posix.SDL_TicksInit, Posix.SDL_TicksQuit, Posix.SDL_GetTicks,
        Posix.ticksValue, hc, hm, u32]
  · intro c s hc
    refine ⟨?_, ?_⟩ <;>
      simp [Win.SDL_TicksInit, Win.SDL_TicksQuit,
        Win.SDL_SetSystemTimerResolution, Win.SDL_GetTicks, Win.ticksValue,
        hc, u32]
  · intro c s hc
    refine ⟨?_, ?_⟩ <;>
      simp [Win.SDL_TicksInit, Win.SDL_TicksQuit,
        Win.SDL_SetSystemTimerResolution, Win.SDL_GetTicks, Win.ticksValue,
        hc, u32sub, u32]

/-- C9 witness: quitting with an active period-5 request releases it; a
quit/reinit round trip on each branch restarts the origin and makes
`getTicks` read 0 at the reinit clock reading. -/
theorem C9_quit_reinit_witness :
    (Win.SDL_TicksQuit wsTP5).1.ticks_started = false ∧
    (Win.SDL_TicksQuit wsTP5).2 = [OsTimerCall.timeEndPeriod 5] ∧
    (Posix.SDL_GetTicks pcB
      (Posix.SDL_TicksInit pcB (Posix.SDL_TicksQuit psMono))).2 = 0 ∧
    (Win.SDL_GetTicks wcA
      (Win.SDL_TicksInit wcA (Win.SDL_TicksQuit wsTP5).1)).2 = 0 :=
  ⟨((C9_quit_reinit.1 wsTP5).1),
   ((C9_quit_reinit.1 wsTP5).2.2.2.1 (by decide)),
   (C9_quit_reinit.2.2.1 pcB psMono rfl).2.2,
   (C9_quit_reinit.2.2.2.2.1 wcA wsTP5 rfl).2⟩
